import Mathlib

/-!
Shallow embedding of the TFO (TCP Fast Open) stream-socket layer
(`tfo_bsd.go`, `tfo_darwin.go`), together with theorems settling the
frozen claims about it.

Modelling conventions:
- System calls are modelled by an oracle structure `OS` that fixes the
  outcome of each OS-level primitive; every embedded function threads the
  oracle and additionally records the ordered list of externally visible
  actions it performs (an `Event` trace), so claims about "what the code
  does before returning" become claims about traces.
- Machine integers are `Nat`/`Int`; errno values are `Nat`.
- Fallible operations return `Option Err` (none = nil error) or
  `Except Err α`, mirroring Go's `(value, error)` returns.
-/

namespace Tfo

/-! ### Platform constants (darwin values; only their distinctness and the
identity of `EINPROGRESS` matter to the logic) -/

def AF_INET : Nat := 2
def AF_INET6 : Nat := 30
def IPPROTO_TCP : Nat := 6
def IPPROTO_IPV6 : Nat := 41
def IPV6_V6ONLY : Nat := 27
def TCP_NODELAY : Nat := 1
def SOL_SOCKET : Nat := 65535
def SO_KEEPALIVE : Nat := 8
def SO_LINGER : Nat := 128
def TCP_KEEPINTVL : Nat := 257
def TCP_KEEPALIVE : Nat := 16
def TCP_FASTOPEN : Nat := 261
def EINPROGRESS : Nat := 36

/-- Go `time.Duration` is int64 nanoseconds; `time.Second`. -/
def timeSecond : Int := 1000000000

/-- Go `time.Millisecond`. -/
def timeMillisecond : Int := 1000000

/-! ### Errors

`Err.wrapped op inner` stands for any of Go's wrapping layers that attach
an operation name (`os.NewSyscallError` via `wrapSyscallError`,
`net.OpError`, `os.PathError`); `Err.errClosed` is Go's `os.ErrClosed`. -/

inductive Err where
  | mismatchedAddressFamily
  | errClosed
  | errno (e : Nat)
  | wrapped (op : String) (inner : Err)
deriving Repr, DecidableEq

/-- Modelled from the spec: `wrapSyscallError` (repository code outside
`src/`) wraps an OS failure with the attempted operation's name
("Every failure from any primitive is wrapped ... carrying the attempted
operation name"). -/
def wrapSyscallError (name : String) (e : Err) : Err := Err.wrapped name e

/-- An error is a "connection closed" failure if `os.ErrClosed` appears
somewhere in its wrapping chain. -/
def isClosedErr : Err → Bool
  | Err.errClosed => true
  | Err.wrapped _ inner => isClosedErr inner
  | _ => false

/-- An operation result fails with a connection-closed error. -/
def failsClosed : Option Err → Bool
  | some e => isClosedErr e
  | none => false

/-! ### Events: the ordered externally visible actions of a run -/

inductive Event where
  | lock
  | unlock
  | socketCreate (domain fd : Nat)
  | closeOnExec (fd : Nat)
  | setNonblock (fd : Nat)
  | closeFd (fd : Nat)
  | setsockoptInt (fd level opt : Nat) (value : Int)
  | setsockoptLinger (fd onoff : Nat) (linger : Int)
  | bindCall (fd : Nat)
  | connectCall (payload : List Nat)
  | connectx (fd : Nat) (payload : List Nat)
  | waitWritable
  | fdRead (fd : Nat)
  | fdWrite (fd : Nat) (payload : List Nat)
  | fdReadFrom (fd : Nat)
  | fileClose (fd : Nat)
  | listenCall
  | lnSyscallConn
  | lnControl
  | lnClose
deriving Repr, DecidableEq

def isConnectCall : Event → Bool
  | Event.connectCall _ => true
  | _ => false

def isConnectx : Event → Bool
  | Event.connectx _ _ => true
  | _ => false

/-- Number of invocations of the platform connect strategy
(`tfoConn.connect`) recorded in a trace. -/
def connectCallCount (evs : List Event) : Nat := evs.countP isConnectCall

/-- Whether a trace contains an actual connection attempt (the `connectx`
system call reaching the OS). -/
def hasConnectx (evs : List Event) : Bool := evs.any isConnectx

/-! ### The OS oracle: fixed outcomes of each system-level primitive.
`none` / `.ok` means the primitive succeeds; `some e` / `.error e` is the
errno it fails with. -/

structure OS where
  /-- `unix.Socket`: new descriptor on success. -/
  socketRes : Except Nat Nat
  /-- `unix.SetNonblock`. -/
  setNonblockRes : Option Nat
  /-- The `unix.SetsockoptInt(IPPROTO_IPV6, IPV6_V6ONLY, _)` call inside
  `setIPv6Only` (whose result the source discards). -/
  ipv6OnlyRes : Option Nat
  /-- `unix.SetsockoptInt(IPPROTO_TCP, TCP_NODELAY, _)`. -/
  noDelayRes : Option Nat
  /-- `unix.SetsockoptInt(SOL_SOCKET, SO_KEEPALIVE, _)`. -/
  keepAliveRes : Option Nat
  /-- `unix.SetsockoptLinger(SOL_SOCKET, SO_LINGER, _)`. -/
  lingerRes : Option Nat
  /-- `unix.SetsockoptInt(IPPROTO_TCP, TCP_KEEPINTVL, _)`. -/
  keepIntvlRes : Option Nat
  /-- `unix.SetsockoptInt(IPPROTO_TCP, TCP_KEEPALIVE, _)` (keep-alive idle). -/
  keepIdleRes : Option Nat
  /-- `unix.Bind`. -/
  bindRes : Option Nat
  /-- `bsd.Connectx`: payload ↦ (bytes sent, errno). -/
  connectxRes : List Nat → Nat × Option Nat
  /-- `SO_ERROR` as read by `getSocketError` after the connect attempt. -/
  soError : Option Nat
  /-- `unix.Getsockname` as used by `getLocalAddr`. -/
  getsocknameRes : Option Nat
  /-- `os.File.Read` on the open descriptor: (bytes read, errno). -/
  fdReadRes : Nat × Option Nat
  /-- `os.File.Write` on the open descriptor: payload ↦ (bytes, errno). -/
  fdWriteRes : List Nat → Nat × Option Nat
  /-- `os.File.ReadFrom` on the open descriptor: (bytes, errno). -/
  readFromRes : Nat × Option Nat
  /-- The close(2) underlying `os.File.Close`. -/
  closeRes : Option Nat
  /-- `net.ListenConfig.Listen`: listener descriptor on success. -/
  listenRes : Except Nat Nat
  /-- `(*net.TCPListener).SyscallConn`. -/
  syscallConnRes : Option Nat
  /-- `rawConn.Control` itself (the callback runs only when this is `none`). -/
  controlRes : Option Nat
  /-- `unix.SetsockoptInt(IPPROTO_TCP, TCP_FASTOPEN, 1)` in `SetTFOListener`. -/
  fastOpenRes : Option Nat

/-! ### Addresses -/

/-- `net.TCPAddr`: the IP is Go's `net.IP`, a byte slice. -/
structure TCPAddr where
  ip : List Nat
  port : Nat
deriving Repr, DecidableEq

/-- Go standard library `net.IP.To4`: non-nil iff the slice is a 4-byte
address or a 16-byte IPv4-mapped (`::ffff:a.b.c.d`) address. -/
def ipTo4 (ip : List Nat) : Option (List Nat) :=
  if ip.length = 4 then some ip
  else if ip.length = 16 ∧ (ip.take 10).all (fun x => x == 0) = true ∧
          ip.getD 10 0 = 255 ∧ ip.getD 11 0 = 255 then
    some (ip.drop 12)
  else none

/-- `unix.Sockaddr` as used by the source: `SockaddrInet4` / `SockaddrInet6`. -/
inductive Sockaddr where
  | inet4 (port : Nat) (addr : List Nat)
  | inet6 (port : Nat) (addr : List Nat)
deriving Repr, DecidableEq

/-! ### The connection handle

`tfoConn` of `tfo_bsd.go`. The `*os.File` wrapper is represented by the
descriptor plus its closed flag (`os.File` operations fail with
`os.ErrClosed` once the file is closed); the mutex is represented by
`lock`/`unlock` events in the single-threaded trace semantics. -/

structure tfoConn where
  fd : Nat
  fileClosed : Bool
  connected : Bool
  network : String
  laddr : Option TCPAddr
  raddr : TCPAddr
  lsockaddr : Sockaddr
  rsockaddr : Sockaddr
deriving Repr, DecidableEq

/-! ### Socket option setters (`tfo_bsd.go`) -/

/-- `setIPv6Only` (tfo_bsd.go): when the family is `AF_INET6` it issues
`unix.SetsockoptInt(fd, IPPROTO_IPV6, IPV6_V6ONLY, ipv6only)` but the
source discards that call's result ("some operating systems never admit
this option") and returns nil unconditionally. -/
def setIPv6Only (os : OS) (fd family ipv6only : Nat) : List Event × Option Err :=
  if family = AF_INET6 then
    match os.ipv6OnlyRes with
    | _ => ([Event.setsockoptInt fd IPPROTO_IPV6 IPV6_V6ONLY (Int.ofNat ipv6only)], none)
  else ([], none)

/-- `setNoDelay` (tfo_bsd.go): returns the `SetsockoptInt` result. -/
def setNoDelay (os : OS) (fd : Nat) (noDelay : Int) : List Event × Option Err :=
  ([Event.setsockoptInt fd IPPROTO_TCP TCP_NODELAY noDelay], os.noDelayRes.map Err.errno)

/-- `setKeepAlive` (tfo_bsd.go): returns the `SetsockoptInt` result. -/
def setKeepAlive (os : OS) (fd : Nat) (keepalive : Int) : List Event × Option Err :=
  ([Event.setsockoptInt fd SOL_SOCKET SO_KEEPALIVE keepalive], os.keepAliveRes.map Err.errno)

/-- `setLinger` (tfo_bsd.go): builds the `unix.Linger` value (`Onoff=1,
Linger=sec` for nonnegative `sec`, else `Onoff=0, Linger=0`) and returns
the `SetsockoptLinger` result. -/
def setLinger (os : OS) (fd : Nat) (sec : Int) : List Event × Option Err :=
  if sec ≥ 0 then
    ([Event.setsockoptLinger fd 1 sec], os.lingerRes.map Err.errno)
  else
    ([Event.setsockoptLinger fd 0 0], os.lingerRes.map Err.errno)

/-! ### Darwin primitives (`tfo_darwin.go`) -/

/-- `SetTFOListener` (tfo_darwin.go): sets `TCP_FASTOPEN = 1`. -/
def SetTFOListener (os : OS) (fd : Nat) : List Event × Option Err :=
  ([Event.setsockoptInt fd IPPROTO_TCP TCP_FASTOPEN 1], os.fastOpenRes.map Err.errno)

/-- `SetTFODialer` (tfo_darwin.go): a no-op returning nil. -/
def SetTFODialer (fd : Nat) : Option Err := none

/-- Modelled from the spec: `roundDurationUp` is repository code outside
`src/` ("generic duration/rounding utilities" are out of scope there);
the spec requires converting the duration into whole units "rounding up
to the next whole unit (never truncating below the requested duration)",
which for nonnegative durations is the ceiling division below. -/
def roundDurationUp (d unit : Int) : Int := (d + unit - 1) / unit

/-- `setKeepAlivePeriod` (tfo_darwin.go): rounds the duration up to whole
seconds and applies the same value to `TCP_KEEPINTVL` and then
`TCP_KEEPALIVE` (keep-alive idle), stopping at the first failure. -/
def setKeepAlivePeriod (os : OS) (fd : Nat) (d : Int) : List Event × Option Err :=
  let secs := roundDurationUp d timeSecond
  match os.keepIntvlRes with
  | some e => ([Event.setsockoptInt fd IPPROTO_TCP TCP_KEEPINTVL secs], some (Err.errno e))
  | none =>
    ([Event.setsockoptInt fd IPPROTO_TCP TCP_KEEPINTVL secs,
      Event.setsockoptInt fd IPPROTO_TCP TCP_KEEPALIVE secs],
     os.keepIdleRes.map Err.errno)

/-- `socket` (tfo_darwin.go): `unix.Socket`, then `CloseOnExec`, then
`SetNonblock`; on `SetNonblock` failure the new descriptor is closed and
the error returned. -/
def socket (os : OS) (domain : Nat) : List Event × Except Err Nat :=
  match os.socketRes with
  | Except.error e => ([], Except.error (Err.errno e))
  | Except.ok fd =>
    match os.setNonblockRes with
    | some e =>
      ([Event.socketCreate domain fd, Event.closeOnExec fd, Event.setNonblock fd,
        Event.closeFd fd], Except.error (Err.errno e))
    | none =>
      ([Event.socketCreate domain fd, Event.closeOnExec fd, Event.setNonblock fd],
       Except.ok fd)

/-- Modelled from the spec: `getSocketError` is repository code outside
`src/`; per the spec's error-wrapping contract it reads the pending
`SO_ERROR` and, when set, returns it wrapped with the attempted
operation's name. -/
def getSocketError (os : OS) (call : String) : Option Err :=
  os.soError.map (fun e => Err.wrapped call (Err.errno e))

/-- Modelled from the spec: `getLocalAddr` is repository code outside
`src/`; it queries the bound local address (`getsockname`) after the
handshake, failing with a wrapped error when the query fails. The
address update itself is irrelevant to the claims and omitted. -/
def getLocalAddr (os : OS) : Option Err :=
  os.getsocknameRes.map (fun e => Err.wrapped "getsockname" (Err.errno e))

/-- Result of `tfoConn.connect`: event trace, bytes sent, error. -/
structure ConnectResult where
  events : List Event
  n : Nat
  err : Option Err
deriving Repr, DecidableEq

/-- `tfoConn.connect` (tfo_darwin.go). `c.f.SyscallConn()` succeeds for a
non-nil `*os.File` (Go stdlib), so the rawConn is always obtained. When
the file is already closed, `rawConn.Write` fails with a wrapped
`os.ErrClosed` before ever invoking the callback. Otherwise the callback
runs `bsd.Connectx` once; an `EINPROGRESS` result makes the callback
return false, so the runtime waits for writability and re-invokes it,
where the `done` flag ends the loop.

NOTE (faithful to the source): inside the callback the source declares
`bytesSent, err := bsd.Connectx(...)`, which shadows the function's named
result `err`; consequently a non-EINPROGRESS `Connectx` errno never
reaches the `if err != nil { return 0, wrapSyscallError("connectx", err) }`
check after `rawConn.Write` — that check is dead, and the only failures
the open-file path can report come from `getSocketError` or
`getLocalAddr`. -/
def tfoConn.connect (os : OS) (c : tfoConn) (b : List Nat) : ConnectResult :=
  if c.fileClosed then
    { events := [Event.connectCall b], n := 0,
      err := some (Err.wrapped "raw-write" Err.errClosed) }
  else
    let r := os.connectxRes b
    let inner : List Event :=
      match r.2 with
      | some e =>
        if e = EINPROGRESS then [Event.connectx c.fd b, Event.waitWritable]
        else [Event.connectx c.fd b]
      | none => [Event.connectx c.fd b]
    let err : Option Err :=
      match getSocketError os "connectx" with
      | some e => some e
      | none => getLocalAddr os
    { events := Event.connectCall b :: inner, n := r.1, err := err }

/-! ### `os.File` forwarding (Go stdlib behavior: a closed file fails every
operation with a wrapped `os.ErrClosed`) -/

def fileRead (os : OS) (c : tfoConn) : Nat × Option Err :=
  if c.fileClosed then (0, some (Err.wrapped "read" Err.errClosed))
  else (os.fdReadRes.1, os.fdReadRes.2.map (fun e => Err.wrapped "read" (Err.errno e)))

def fileWrite (os : OS) (c : tfoConn) (b : List Nat) : Nat × Option Err :=
  if c.fileClosed then (0, some (Err.wrapped "write" Err.errClosed))
  else ((os.fdWriteRes b).1,
        (os.fdWriteRes b).2.map (fun e => Err.wrapped "write" (Err.errno e)))

def fileReadFrom (os : OS) (c : tfoConn) : Nat × Option Err :=
  if c.fileClosed then (0, some (Err.wrapped "readfrom" Err.errClosed))
  else (os.readFromRes.1, os.readFromRes.2.map (fun e => Err.wrapped "readfrom" (Err.errno e)))

/-- Result of a connection operation: post-state, trace, count, error. -/
structure OpResult where
  post : tfoConn
  events : List Event
  n : Nat
  err : Option Err
deriving Repr, DecidableEq

/-- `tfoConn.Read` (tfo_bsd.go): lock; if not connected, `connect(nil)`
(returning `0, err` and unlocking on failure — note the byte count from
connect is discarded), else mark connected; unlock; `c.f.Read(b)`.
The buffer contents do not influence control flow and are left to the
oracle's read result. -/
def tfoConn.Read (os : OS) (c : tfoConn) : OpResult :=
  if !c.connected then
    let cr := tfoConn.connect os c []
    match cr.err with
    | some e =>
      { post := c, events := Event.lock :: cr.events ++ [Event.unlock],
        n := 0, err := some e }
    | none =>
      let c1 := { c with connected := true }
      let r := fileRead os c1
      { post := c1,
        events := Event.lock :: cr.events ++ [Event.unlock, Event.fdRead c.fd],
        n := r.1, err := r.2 }
  else
    let r := fileRead os c
    { post := c, events := [Event.lock, Event.unlock, Event.fdRead c.fd],
      n := r.1, err := r.2 }

/-- `tfoConn.ReadFrom` (tfo_bsd.go): identical connect-then-proceed shape,
delegating to the file's `ReadFrom`. -/
def tfoConn.ReadFrom (os : OS) (c : tfoConn) : OpResult :=
  if !c.connected then
    let cr := tfoConn.connect os c []
    match cr.err with
    | some e =>
      { post := c, events := Event.lock :: cr.events ++ [Event.unlock],
        n := 0, err := some e }
    | none =>
      let c1 := { c with connected := true }
      let r := fileReadFrom os c1
      { post := c1,
        events := Event.lock :: cr.events ++ [Event.unlock, Event.fdReadFrom c.fd],
        n := r.1, err := r.2 }
  else
    let r := fileReadFrom os c
    { post := c, events := [Event.lock, Event.unlock, Event.fdReadFrom c.fd],
      n := r.1, err := r.2 }

/-- `tfoConn.Write` (tfo_bsd.go): lock; if connected, unlock and pass the
buffer straight to `c.f.Write`; otherwise `n, err := connect(b)`, mark
connected exactly when `err == nil`, unlock, and return `(n, err)`. -/
def tfoConn.Write (os : OS) (c : tfoConn) (b : List Nat) : OpResult :=
  if c.connected then
    let r := fileWrite os c b
    { post := c, events := [Event.lock, Event.unlock, Event.fdWrite c.fd b],
      n := r.1, err := r.2 }
  else
    let cr := tfoConn.connect os c b
    match cr.err with
    | none =>
      { post := { c with connected := true },
        events := Event.lock :: cr.events ++ [Event.unlock], n := cr.n, err := none }
    | some e =>
      { post := c, events := Event.lock :: cr.events ++ [Event.unlock],
        n := cr.n, err := some e }

/-- `tfoConn.Close` (tfo_bsd.go): `c.f.Close()`, wrapping a failure in a
`net.OpError{Op: "close"}`. `os.File.Close` on an already-closed file
fails with a wrapped `os.ErrClosed`; a first close marks the file closed
and reports the underlying close(2) result. -/
def tfoConn.Close (os : OS) (c : tfoConn) : tfoConn × List Event × Option Err :=
  if c.fileClosed then
    (c, [Event.fileClose c.fd],
     some (Err.wrapped "close" (Err.wrapped "close" Err.errClosed)))
  else
    match os.closeRes with
    | some e =>
      ({ c with fileClosed := true }, [Event.fileClose c.fd],
       some (Err.wrapped "close" (Err.errno e)))
    | none => ({ c with fileClosed := true }, [Event.fileClose c.fd], none)

/-! ### Operation sequences on a handle -/

inductive Op where
  | read
  | readFrom
  | write (b : List Nat)
  | close
deriving Repr, DecidableEq

def runOp (os : OS) (c : tfoConn) : Op → tfoConn × List Event
  | Op.read => let r := tfoConn.Read os c; (r.post, r.events)
  | Op.readFrom => let r := tfoConn.ReadFrom os c; (r.post, r.events)
  | Op.write b => let r := tfoConn.Write os c b; (r.post, r.events)
  | Op.close => let r := tfoConn.Close os c; (r.1, r.2.1)

def run (os : OS) (c : tfoConn) : List Op → tfoConn × List Event
  | [] => (c, [])
  | op :: rest =>
    let r := runOp os c op
    let r2 := run os r.1 rest
    (r2.1, r.2 ++ r2.2)

/-! ### `dialTFO` (tfo_bsd.go)

The source determines the family from `raddr.IP.To4()`, builds the remote
sockaddr, validates the local address family against the remote's (before
any socket is created), synthesizes a wildcard local sockaddr when no
local address is given, then: `socket(domain)`, `setIPv6Only`,
`setNoDelay(fd, 1)`, `SetTFODialer`, `Bind` (only with a local address),
and finally wraps the descriptor into a `tfoConn`. The Go pointer casts
`*(*[4]byte)` / `*(*[16]byte)` on the IP slice are its leading bytes. -/
def dialTFO (os : OS) (network : String) (laddr : Option TCPAddr) (raddr : TCPAddr) :
    List Event × Except Err tfoConn :=
  let raddrIs4 := (ipTo4 raddr.ip).isSome
  let domain := if raddrIs4 then AF_INET else AF_INET6
  let rsockaddr :=
    if raddrIs4 then Sockaddr.inet4 raddr.port (raddr.ip.take 4)
    else Sockaddr.inet6 raddr.port (raddr.ip.take 16)
  let lres : Except Err Sockaddr :=
    match laddr with
    | some l =>
      let laddrIs4 := (ipTo4 l.ip).isSome
      if laddrIs4 ≠ raddrIs4 then Except.error Err.mismatchedAddressFamily
      else if laddrIs4 then Except.ok (Sockaddr.inet4 l.port (l.ip.take 4))
      else Except.ok (Sockaddr.inet6 l.port (l.ip.take 16))
    | none =>
      if raddrIs4 then Except.ok (Sockaddr.inet4 0 [0, 0, 0, 0])
      else Except.ok (Sockaddr.inet6 0 (List.replicate 16 0))
  match lres with
  | Except.error e => ([], Except.error e)
  | Except.ok lsockaddr =>
    match socket os domain with
    | (evs, Except.error e) => (evs, Except.error (wrapSyscallError "socket" e))
    | (evs, Except.ok fd) =>
      let v6only : Nat := if network = "tcp6" then 1 else 0
      let s1 := setIPv6Only os fd domain v6only
      match s1.2 with
      | some e => (evs ++ s1.1, Except.error (wrapSyscallError "setsockopt" e))
      | none =>
        let s2 := setNoDelay os fd 1
        match s2.2 with
        | some e => (evs ++ s1.1 ++ s2.1, Except.error (wrapSyscallError "setsockopt" e))
        | none =>
          match SetTFODialer fd with
          | some e => (evs ++ s1.1 ++ s2.1, Except.error (wrapSyscallError "setsockopt" e))
          | none =>
            let s3 : List Event × Option Err :=
              match laddr with
              | some _ => ([Event.bindCall fd], os.bindRes.map Err.errno)
              | none => ([], none)
            match s3.2 with
            | some e => (evs ++ s1.1 ++ s2.1 ++ s3.1, Except.error (wrapSyscallError "bind" e))
            | none =>
              (evs ++ s1.1 ++ s2.1 ++ s3.1,
               Except.ok
                 { fd := fd, fileClosed := false, connected := false, network := network,
                   laddr := laddr, raddr := raddr, lsockaddr := lsockaddr,
                   rsockaddr := rsockaddr })

/-- `ListenConfig.listenTFO` (tfo_darwin.go): `Listen`, then the
listener's `SyscallConn`, then `rawConn.Control` running `SetTFOListener`
on the raw descriptor. A `SyscallConn` or `Control` failure closes the
listener and returns the error; but `SetTFOListener`'s own failure
(`innerErr`) is returned together with the still-open listener
(`return ln, innerErr`). Result: (trace, returned listener, error). -/
def listenTFO (os : OS) (network address : String) :
    List Event × Option Nat × Option Err :=
  match network, address, os.listenRes with
  | _, _, Except.error e => ([Event.listenCall], none, some (Err.errno e))
  | _, _, Except.ok ln =>
    match os.syscallConnRes with
    | some e =>
      ([Event.listenCall, Event.lnSyscallConn, Event.lnClose], none, some (Err.errno e))
    | none =>
      match os.controlRes with
      | some e =>
        ([Event.listenCall, Event.lnSyscallConn, Event.lnControl, Event.lnClose],
         none, some (Err.errno e))
      | none =>
        let s := SetTFOListener os ln
        ([Event.listenCall, Event.lnSyscallConn, Event.lnControl] ++ s.1,
         some ln, s.2)

/-! ### Concrete fixtures for witnesses and counterexamples -/

/-- An oracle on which every primitive succeeds. -/
def okOS : OS :=
  { socketRes := Except.ok 3, setNonblockRes := none, ipv6OnlyRes := none,
    noDelayRes := none, keepAliveRes := none, lingerRes := none,
    keepIntvlRes := none, keepIdleRes := none, bindRes := none,
    connectxRes := fun b => (b.length, none), soError := none,
    getsocknameRes := none, fdReadRes := (0, none),
    fdWriteRes := fun b => (b.length, none), readFromRes := (0, none),
    closeRes := none, listenRes := Except.ok 7, syscallConnRes := none,
    controlRes := none, fastOpenRes := none }

def raddr4 : TCPAddr := { ip := [127, 0, 0, 1], port := 443 }

/-- A freshly dialed, not yet connected handle. -/
def conn0 : tfoConn :=
  { fd := 3, fileClosed := false, connected := false, network := "tcp",
    laddr := none, raddr := raddr4,
    lsockaddr := Sockaddr.inet4 0 [0, 0, 0, 0],
    rsockaddr := Sockaddr.inet4 443 [127, 0, 0, 1] }

/-! ### Helper lemmas about the connect strategy -/

theorem connect_events_head (os : OS) (c : tfoConn) (b : List Nat) :
    (tfoConn.connect os c b).events.head? = some (Event.connectCall b) := by
  unfold tfoConn.connect
  split
  · rfl
  · rfl

theorem connect_connectCall_mem (os : OS) (c : tfoConn) (b : List Nat) :
    Event.connectCall b ∈ (tfoConn.connect os c b).events := by
  unfold tfoConn.connect
  split
  · exact List.mem_singleton.mpr rfl
  · exact List.mem_cons_self _ _

theorem connect_mem_forms (os : OS) (c : tfoConn) (b : List Nat) :
    ∀ e ∈ (tfoConn.connect os c b).events,
      e = Event.connectCall b ∨ e = Event.connectx c.fd b ∨ e = Event.waitWritable := by
  unfold tfoConn.connect
  split
  · intro e he
    simp only [List.mem_cons, List.not_mem_nil, or_false] at he
    exact Or.inl he
  · dsimp only
    rcases hx : (os.connectxRes b).2 with _ | ec
    · intro e he
      simp only [List.mem_cons, List.not_mem_nil, or_false] at he
      exact he.imp id Or.inl
    · by_cases hp : ec = EINPROGRESS
      · intro e he
        simp only [if_pos hp, List.mem_cons, List.not_mem_nil, or_false] at he
        exact he
      · intro e he
        simp only [if_neg hp, List.mem_cons, List.not_mem_nil, or_false] at he
        exact he.imp id Or.inl

theorem connect_count_one (os : OS) (c : tfoConn) (b : List Nat) :
    connectCallCount (tfoConn.connect os c b).events = 1 := by
  unfold tfoConn.connect
  split
  · simp [connectCallCount, isConnectCall]
  · dsimp only
    rcases hx : (os.connectxRes b).2 with _ | ec
    · simp [connectCallCount, isConnectCall, hx]
    · by_cases hp : ec = EINPROGRESS <;>
        simp [connectCallCount, isConnectCall, hx, hp]

theorem connect_closed (os : OS) (c : tfoConn) (b : List Nat)
    (h : c.fileClosed = true) :
    tfoConn.connect os c b =
      { events := [Event.connectCall b], n := 0,
        err := some (Err.wrapped "raw-write" Err.errClosed) } := by
  unfold tfoConn.connect
  rw [if_pos h]

/-! ### Helper lemmas about Close and closed handles -/

theorem close_post (os : OS) (c : tfoConn) :
    ((tfoConn.Close os c).1).fileClosed = true ∧
    ((tfoConn.Close os c).1).connected = c.connected ∧
    ((tfoConn.Close os c).1).fd = c.fd := by
  unfold tfoConn.Close
  split
  · next h => exact ⟨h, rfl, rfl⟩
  · rcases hr : os.closeRes with _ | e <;> exact ⟨rfl, rfl, rfl⟩

theorem read_on_closed (os : OS) (c : tfoConn) (h : c.fileClosed = true) :
    failsClosed (tfoConn.Read os c).err = true ∧
    hasConnectx (tfoConn.Read os c).events = false := by
  unfold tfoConn.Read
  split
  · rw [connect_closed os c [] h]
    exact ⟨rfl, rfl⟩
  · simp [fileRead, h, failsClosed, isClosedErr, hasConnectx, isConnectx]

theorem write_on_closed (os : OS) (c : tfoConn) (b : List Nat)
    (h : c.fileClosed = true) :
    failsClosed (tfoConn.Write os c b).err = true ∧
    hasConnectx (tfoConn.Write os c b).events = false := by
  unfold tfoConn.Write
  split
  · simp [fileWrite, h, failsClosed, isClosedErr, hasConnectx, isConnectx]
  · rw [connect_closed os c b h]
    exact ⟨rfl, rfl⟩

/-! ### Claim theorems -/

/-- Claim C1: for a not-yet-connected handle, `Write(buf)` acquires the
mutex, invokes the platform connect strategy with `buf` as the payload,
marks the handle connected on success, and returns the byte count the
handshake consumed from `buf` (which the strategy may report as less than
the buffer length); on an already-connected handle `Write` passes `buf`
straight through to the underlying descriptor. -/
theorem write_defers_connect_with_payload (os : OS) (c : tfoConn) (b : List Nat) :
    (c.connected = false →
      (tfoConn.Write os c b).events.head? = some Event.lock ∧
      Event.connectCall b ∈ (tfoConn.Write os c b).events ∧
      ((tfoConn.connect os c b).err = none →
        (tfoConn.Write os c b).post.connected = true ∧
        (tfoConn.Write os c b).n = (tfoConn.connect os c b).n ∧
        (tfoConn.Write os c b).err = none)) ∧
    (c.connected = true →
      (tfoConn.Write os c b).post = c ∧
      (tfoConn.Write os c b).events = [Event.lock, Event.unlock, Event.fdWrite c.fd b] ∧
      (tfoConn.Write os c b).n = (fileWrite os c b).1 ∧
      (tfoConn.Write os c b).err = (fileWrite os c b).2) := by
  constructor
  · intro h
    unfold tfoConn.Write
    split
    · next hcond => rw [h] at hcond; exact Bool.noConfusion hcond
    · dsimp only
      rcases hcr : (tfoConn.connect os c b).err with _ | e
      · refine ⟨rfl, ?_, fun _ => ⟨rfl, rfl, rfl⟩⟩
        exact List.mem_cons.mpr
          (Or.inr (List.mem_append.mpr (Or.inl (connect_connectCall_mem os c b))))
      · refine ⟨rfl, ?_, fun habs => Option.noConfusion habs⟩
        exact List.mem_cons.mpr
          (Or.inr (List.mem_append.mpr (Or.inl (connect_connectCall_mem os c b))))
  · intro h
    unfold tfoConn.Write
    split
    · exact ⟨rfl, rfl, rfl, rfl⟩
    · next hcond => exact absurd h hcond

/-- Witness for C1 at a concrete not-yet-connected handle and a
two-byte payload on an all-success oracle. -/
theorem write_defers_connect_with_payload_witness :
    conn0.connected = false ∧
    (tfoConn.Write okOS conn0 [10, 20]).post.connected = true ∧
    (tfoConn.Write okOS conn0 [10, 20]).n = (tfoConn.connect okOS conn0 [10, 20]).n := by
  have h := (write_defers_connect_with_payload okOS conn0 [10, 20]).1 rfl
  have h2 := h.2.2 (by decide)
  exact ⟨rfl, h2.1, h2.2.1⟩

/-- Claim C3: for a not-yet-connected handle, `Read` (and the `ReadFrom`
bulk-transfer variant) first invokes the platform connect strategy with
no payload, marks the handle connected, and only then performs the read
from the descriptor; on connect failure it returns 0 and the error
without reading. -/
theorem read_idle_plain_handshake (os : OS) (c : tfoConn) :
    c.connected = false →
      Event.connectCall [] ∈ (tfoConn.Read os c).events ∧
      Event.connectCall [] ∈ (tfoConn.ReadFrom os c).events ∧
      ((tfoConn.connect os c []).err = none →
        (tfoConn.Read os c).events =
          Event.lock :: (tfoConn.connect os c []).events ++
            [Event.unlock, Event.fdRead c.fd] ∧
        (tfoConn.Read os c).post.connected = true ∧
        (tfoConn.ReadFrom os c).events =
          Event.lock :: (tfoConn.connect os c []).events ++
            [Event.unlock, Event.fdReadFrom c.fd] ∧
        (tfoConn.ReadFrom os c).post.connected = true) ∧
      (∀ e, (tfoConn.connect os c []).err = some e →
        (tfoConn.Read os c).n = 0 ∧ (tfoConn.Read os c).err = some e ∧
        Event.fdRead c.fd ∉ (tfoConn.Read os c).events ∧
        (tfoConn.ReadFrom os c).n = 0 ∧ (tfoConn.ReadFrom os c).err = some e ∧
        Event.fdReadFrom c.fd ∉ (tfoConn.ReadFrom os c).events) := by
  intro h
  unfold tfoConn.Read tfoConn.ReadFrom
  have hb : (!c.connected) = true := by rw [h]; rfl
  simp only [if_pos hb]
  rcases hcr : (tfoConn.connect os c []).err with _ | e
  · refine ⟨?_, ?_, fun _ => ⟨rfl, rfl, rfl, rfl⟩, fun e habs => Option.noConfusion habs⟩
    · exact List.mem_cons.mpr
        (Or.inr (List.mem_append.mpr (Or.inl (connect_connectCall_mem os c []))))
    · exact List.mem_cons.mpr
        (Or.inr (List.mem_append.mpr (Or.inl (connect_connectCall_mem os c []))))
  · refine ⟨?_, ?_, fun habs => Option.noConfusion habs, ?_⟩
    · exact List.mem_cons.mpr
        (Or.inr (List.mem_append.mpr (Or.inl (connect_connectCall_mem os c []))))
    · exact List.mem_cons.mpr
        (Or.inr (List.mem_append.mpr (Or.inl (connect_connectCall_mem os c []))))
    · intro e' he'
      injection he' with hee
      subst hee
      refine ⟨rfl, rfl, ?_, rfl, rfl, ?_⟩
      · intro hmem
        rcases List.mem_cons.mp hmem with hm | hm
        · cases hm
        rcases List.mem_append.mp hm with hm2 | hm2
        · rcases connect_mem_forms os c [] _ hm2 with hf | hf | hf <;> cases hf
        · cases List.mem_singleton.mp hm2
      · intro hmem
        rcases List.mem_cons.mp hmem with hm | hm
        · cases hm
        rcases List.mem_append.mp hm with hm2 | hm2
        · rcases connect_mem_forms os c [] _ hm2 with hf | hf | hf <;> cases hf
        · cases List.mem_singleton.mp hm2

/-- Witness for C3: concrete handle on an all-success oracle (success
path) and on an oracle whose pending socket error makes connect fail
(failure path). -/
theorem read_idle_plain_handshake_witness :
    conn0.connected = false ∧
    (tfoConn.Read okOS conn0).post.connected = true ∧
    (tfoConn.Read { okOS with soError := some 61 } conn0).n = 0 := by
  have hs := read_idle_plain_handshake okOS conn0 rfl
  have hf := read_idle_plain_handshake { okOS with soError := some 61 } conn0 rfl
  refine ⟨rfl, (hs.2.2.1 (by decide)).2.1, ?_⟩
  exact (hf.2.2.2 (Err.wrapped "connectx" (Err.errno 61)) (by decide)).1

/-- Claim C4: after `Close()`, every subsequent `Read` or `Write` fails
with a connection-closed error (an error wrapping `os.ErrClosed`), never
attempts a connect (no `connectx` reaches the OS), and never panics (the
embedded operations are total functions). -/
theorem closed_conn_ops_fail_closed (os : OS) (c : tfoConn) (b : List Nat) :
    failsClosed (tfoConn.Read os (tfoConn.Close os c).1).err = true ∧
    hasConnectx (tfoConn.Read os (tfoConn.Close os c).1).events = false ∧
    failsClosed (tfoConn.Write os (tfoConn.Close os c).1 b).err = true ∧
    hasConnectx (tfoConn.Write os (tfoConn.Close os c).1 b).events = false := by
  have hc := (close_post os c).1
  have hr := read_on_closed os (tfoConn.Close os c).1 hc
  have hw := write_on_closed os (tfoConn.Close os c).1 b hc
  exact ⟨hr.1, hr.2, hw.1, hw.2⟩

/-! ### Per-operation connect counting (helpers for C2) -/

theorem connectCallCount_wrap (l t : List Event)
    (ht : List.countP isConnectCall t = 0) :
    connectCallCount (Event.lock :: l ++ t) = List.countP isConnectCall l := by
  simp [connectCallCount, List.countP_cons, List.countP_append, ht, isConnectCall]

theorem read_count_zero (os : OS) (c : tfoConn) (h : c.connected = true) :
    connectCallCount (tfoConn.Read os c).events = 0 := by
  unfold tfoConn.Read
  split
  · next hcond => rw [h] at hcond; exact Bool.noConfusion hcond
  · rfl

theorem readFrom_count_zero (os : OS) (c : tfoConn) (h : c.connected = true) :
    connectCallCount (tfoConn.ReadFrom os c).events = 0 := by
  unfold tfoConn.ReadFrom
  split
  · next hcond => rw [h] at hcond; exact Bool.noConfusion hcond
  · rfl

theorem write_count_zero (os : OS) (c : tfoConn) (b : List Nat)
    (h : c.connected = true) :
    connectCallCount (tfoConn.Write os c b).events = 0 := by
  unfold tfoConn.Write
  split
  · rfl
  · next hcond => exact absurd h hcond

theorem close_count_zero (os : OS) (c : tfoConn) :
    connectCallCount (tfoConn.Close os c).2.1 = 0 := by
  unfold tfoConn.Close
  split
  · rfl
  · rcases os.closeRes with _ | e <;> rfl

theorem read_count_le (os : OS) (c : tfoConn) :
    connectCallCount (tfoConn.Read os c).events ≤ 1 := by
  unfold tfoConn.Read
  split
  · dsimp only
    split <;>
    first
      | (rw [connectCallCount_wrap _ [Event.unlock] rfl]
         exact Nat.le_of_eq (connect_count_one os c []))
      | (rw [connectCallCount_wrap _ [Event.unlock, Event.fdRead c.fd] rfl]
         exact Nat.le_of_eq (connect_count_one os c []))
  · simp [connectCallCount, isConnectCall]

theorem readFrom_count_le (os : OS) (c : tfoConn) :
    connectCallCount (tfoConn.ReadFrom os c).events ≤ 1 := by
  unfold tfoConn.ReadFrom
  split
  · dsimp only
    split <;>
    first
      | (rw [connectCallCount_wrap _ [Event.unlock] rfl]
         exact Nat.le_of_eq (connect_count_one os c []))
      | (rw [connectCallCount_wrap _ [Event.unlock, Event.fdReadFrom c.fd] rfl]
         exact Nat.le_of_eq (connect_count_one os c []))
  · simp [connectCallCount, isConnectCall]

theorem write_count_le (os : OS) (c : tfoConn) (b : List Nat) :
    connectCallCount (tfoConn.Write os c b).events ≤ 1 := by
  unfold tfoConn.Write
  split
  · simp [connectCallCount, isConnectCall]
  · dsimp only
    split <;>
    · rw [connectCallCount_wrap _ [Event.unlock] rfl]
      exact Nat.le_of_eq (connect_count_one os c b)

/-- Claim C2 (amended): the platform connect strategy is invoked at most
once per `Read`/`ReadFrom`/`Write` call and never once the handle is
marked connected; the handle is marked connected exactly when an
invocation succeeds — so after a failed attempt the handle stays
unconnected (and the next operation invokes the strategy again, refuting
the original at-most-once-per-lifetime claim). -/
theorem connect_at_most_once_per_op (os : OS) (c : tfoConn) (op : Op) (b : List Nat) :
    (c.connected = true → connectCallCount (runOp os c op).2 = 0) ∧
    connectCallCount (runOp os c op).2 ≤ 1 ∧
    (c.connected = false →
      ((tfoConn.Write os c b).post.connected = true ↔
        (tfoConn.connect os c b).err = none) ∧
      ((tfoConn.Read os c).post.connected = true ↔
        (tfoConn.connect os c []).err = none)) := by
  refine ⟨?_, ?_, ?_⟩
  · intro h
    cases op with
    | read => exact read_count_zero os c h
    | readFrom => exact readFrom_count_zero os c h
    | write b2 => exact write_count_zero os c b2 h
    | close => exact close_count_zero os c
  · cases op with
    | read => exact read_count_le os c
    | readFrom => exact readFrom_count_le os c
    | write b2 => exact write_count_le os c b2
    | close => exact Nat.le_of_eq (close_count_zero os c) |>.trans (by omega)
  · intro h
    constructor
    · unfold tfoConn.Write
      split
      · next hcond => rw [h] at hcond; exact Bool.noConfusion hcond
      · dsimp only
        split
        · next heq => simp [heq]
        · next e heq => simp [heq, h]
    · unfold tfoConn.Read
      split
      · dsimp only
        split
        · next e heq => simp [heq, h]
        · next heq => simp [heq]
      · next hcond =>
          exact absurd (by rw [h]; rfl : (!c.connected) = true) hcond

/-- Witness for the amended C2 on concrete handles: a connected handle
performs no strategy invocation on Read; a fresh handle performs at most
one. -/
theorem connect_at_most_once_per_op_witness :
    connectCallCount (runOp okOS { conn0 with connected := true } Op.read).2 = 0 ∧
    connectCallCount (runOp okOS conn0 Op.read).2 ≤ 1 := by
  exact ⟨(connect_at_most_once_per_op okOS { conn0 with connected := true } Op.read []).1 rfl,
         (connect_at_most_once_per_op okOS conn0 Op.read []).2.1⟩

/-- An oracle whose connect attempt always fails: `connectx` reports
`EINPROGRESS`, and after waiting for writability the pending `SO_ERROR`
is `ECONNREFUSED` (61). -/
def retryOS : OS :=
  { okOS with connectxRes := fun _ => (0, some EINPROGRESS), soError := some 61 }

/-- Counterexample to C2 as stated: after the first Read's connect
attempt fails, a second Read on the same handle invokes the strategy
again — two invocations over the handle's lifetime, not at most one. -/
theorem connect_retried_after_failure :
    ¬ connectCallCount (run retryOS conn0 [Op.read, Op.read]).2 ≤ 1 := by decide

/-- An oracle on which `connectx` fails synchronously with a hard errno
(`EINVAL` = 22, not `EINPROGRESS`) while no pending `SO_ERROR` is set. -/
def hardErrOS : OS := { okOS with connectxRes := fun _ => (0, some 22) }

/-- An oracle on which `connectx` reports `EINPROGRESS` having queued 5
payload bytes, and the handshake later completes cleanly. -/
def inProgressOS : OS := { okOS with connectxRes := fun _ => (5, some EINPROGRESS) }

/-- Claim C5 (code bug): the `EINPROGRESS` half holds — the in-progress
result is not an error and is resolved by waiting for writability — but a
hard `connectx` failure is NOT returned wrapped as "connectx": inside the
`rawConn.Write` callback the source's `bytesSent, err := bsd.Connectx(...)`
shadows the function's named result `err`, so with `SO_ERROR` clear the
hard errno is swallowed, `connect` reports success, and `Write` marks the
handle connected. -/
theorem connectx_hard_error_swallowed :
    (tfoConn.connect hardErrOS conn0 [1]).err = none ∧
    Event.connectx 3 [1] ∈ (tfoConn.connect hardErrOS conn0 [1]).events ∧
    (tfoConn.Write hardErrOS conn0 [1]).post.connected = true ∧
    (tfoConn.connect inProgressOS conn0 [2]).err = none ∧
    Event.waitWritable ∈ (tfoConn.connect inProgressOS conn0 [2]).events ∧
    (tfoConn.connect inProgressOS conn0 [2]).n = 5 := by decide

/-- An oracle on which the `TCP_NODELAY` setsockopt fails (`EINVAL`). -/
def noDelayFailOS : OS := { okOS with noDelayRes := some 22 }

/-- An oracle on which `SetTFOListener`'s setsockopt fails (`EACCES`). -/
def fastOpenFailOS : OS := { okOS with fastOpenRes := some 13 }

/-- Claim C6 (code bug): when `setNoDelay` fails after the socket
(descriptor 3) has been created, `dialTFO` returns the wrapped error
without ever closing the descriptor — it is leaked; likewise `listenTFO`
returns the listener together with `SetTFOListener`'s error without
closing it. -/
theorem dial_and_listen_error_paths_leak :
    (dialTFO noDelayFailOS "tcp" none raddr4).2 =
      Except.error (Err.wrapped "setsockopt" (Err.errno 22)) ∧
    Event.socketCreate AF_INET 3 ∈ (dialTFO noDelayFailOS "tcp" none raddr4).1 ∧
    Event.closeFd 3 ∉ (dialTFO noDelayFailOS "tcp" none raddr4).1 ∧
    (listenTFO fastOpenFailOS "tcp" "127.0.0.1:0").2.1 = some 7 ∧
    (listenTFO fastOpenFailOS "tcp" "127.0.0.1:0").2.2 = some (Err.errno 13) ∧
    Event.lnClose ∉ (listenTFO fastOpenFailOS "tcp" "127.0.0.1:0").1 := by
  exact ⟨rfl, by decide, by decide, rfl, rfl, by decide⟩

/-- Claim C7: a supplied local address whose IP family differs from the
remote's makes `dialTFO` fail with the mismatched-address-family error
before any socket descriptor is created (the trace is empty — no
`socketCreate` event ever happens). -/
theorem dial_family_mismatch (os : OS) (network : String) (l raddr : TCPAddr)
    (h : (ipTo4 l.ip).isSome ≠ (ipTo4 raddr.ip).isSome) :
    dialTFO os network (some l) raddr = ([], Except.error Err.mismatchedAddressFamily) := by
  unfold dialTFO
  dsimp only
  rw [if_pos h]

def laddr4 : TCPAddr := { ip := [127, 0, 0, 1], port := 8080 }

def raddr6 : TCPAddr :=
  { ip := [0, 0, 0, 0, 0, 0, 0, 0, 0, 0, 0, 0, 0, 0, 0, 1], port := 443 }

/-- Witness for C7: IPv4 local address against the IPv6 remote `::1`. -/
theorem dial_family_mismatch_witness :
    (ipTo4 laddr4.ip).isSome ≠ (ipTo4 raddr6.ip).isSome ∧
    dialTFO okOS "tcp" (some laddr4) raddr6 =
      ([], Except.error Err.mismatchedAddressFamily) :=
  ⟨by decide, dial_family_mismatch okOS "tcp" laddr4 raddr6 (by decide)⟩

/-- Claim C8: `setKeepAlivePeriod` rounds the duration up to whole
seconds — the programmed period `secs` satisfies `d ≤ secs * 1s` — and
applies the same rounded value to both the keep-alive interval
(`TCP_KEEPINTVL`) and the keep-alive idle (`TCP_KEEPALIVE`) options; for
1500ms the programmed value is 2 seconds, never 1. -/
theorem setKeepAlivePeriod_rounds_up (os : OS) (fd : Nat) (d : Int) (h : 0 ≤ d) :
    d ≤ roundDurationUp d timeSecond * timeSecond ∧
    (setKeepAlivePeriod os fd d).1.head? =
      some (Event.setsockoptInt fd IPPROTO_TCP TCP_KEEPINTVL
        (roundDurationUp d timeSecond)) ∧
    (os.keepIntvlRes = none →
      (setKeepAlivePeriod os fd d).1 =
        [Event.setsockoptInt fd IPPROTO_TCP TCP_KEEPINTVL (roundDurationUp d timeSecond),
         Event.setsockoptInt fd IPPROTO_TCP TCP_KEEPALIVE (roundDurationUp d timeSecond)]) ∧
    roundDurationUp (1500 * timeMillisecond) timeSecond = 2 := by
  refine ⟨?_, ?_, ?_, by decide⟩
  · unfold roundDurationUp timeSecond
    omega
  · unfold setKeepAlivePeriod
    rcases os.keepIntvlRes with _ | e <;> rfl
  · intro hk
    unfold setKeepAlivePeriod
    rw [hk]

/-- Witness for C8 at the spec's concrete duration of 1500ms. -/
theorem setKeepAlivePeriod_rounds_up_witness :
    (0 : Int) ≤ 1500 * timeMillisecond ∧
    1500 * timeMillisecond ≤ roundDurationUp (1500 * timeMillisecond) timeSecond * timeSecond ∧
    (setKeepAlivePeriod okOS 3 (1500 * timeMillisecond)).1 =
      [Event.setsockoptInt 3 IPPROTO_TCP TCP_KEEPINTVL 2,
       Event.setsockoptInt 3 IPPROTO_TCP TCP_KEEPALIVE 2] := by
  have h := setKeepAlivePeriod_rounds_up okOS 3 (1500 * timeMillisecond) (by decide)
  exact ⟨by decide, h.1, by rw [h.2.2.1 rfl]; decide⟩

/-- `setIPv6Only` returns nil no matter what the discarded setsockopt
reported (shared helper). -/
theorem setIPv6Only_returns_none (os : OS) (fd family ipv6only : Nat) :
    (setIPv6Only os fd family ipv6only).2 = none := by
  unfold setIPv6Only
  split <;> rfl

/-- An oracle on which the `IPV6_V6ONLY` setsockopt fails (`EINVAL`). -/
def ipv6FailOS : OS := { okOS with ipv6OnlyRes := some 22 }

/-- Counterexample to C9 as stated: on an oracle where the underlying
`IPV6_V6ONLY` setsockopt fails with errno 22, `setIPv6Only` still
returns nil instead of reporting the failure. -/
theorem setIPv6Only_swallows_failure :
    ipv6FailOS.ipv6OnlyRes = some 22 ∧
    (setIPv6Only ipv6FailOS 3 AF_INET6 1).2 = none := by decide

/-- Claim C9 (amended): `setNoDelay`, `setKeepAlive` and `setLinger`
each propagate the underlying setsockopt failure, but `setIPv6Only`
(the dual-stack setter) deliberately discards the setsockopt result and
always returns nil, even when the OS call fails. -/
theorem setters_failability (os : OS) (fd family ipv6only : Nat) (v sec : Int) :
    (setIPv6Only os fd family ipv6only).2 = none ∧
    (setNoDelay os fd v).2 = os.noDelayRes.map Err.errno ∧
    (setKeepAlive os fd v).2 = os.keepAliveRes.map Err.errno ∧
    (setLinger os fd sec).2 = os.lingerRes.map Err.errno := by
  refine ⟨setIPv6Only_returns_none os fd family ipv6only, rfl, rfl, ?_⟩
  unfold setLinger
  split <;> rfl

/-- Claim C10: every successful `dialTFO` has enabled `TCP_NODELAY` with
value 1 on the returned connection's descriptor before returning,
regardless of caller input. -/
theorem dial_sets_nodelay (os : OS) (network : String) (laddr : Option TCPAddr)
    (raddr : TCPAddr) (conn : tfoConn)
    (h : (dialTFO os network laddr raddr).2 = Except.ok conn) :
    Event.setsockoptInt conn.fd IPPROTO_TCP TCP_NODELAY 1 ∈
      (dialTFO os network laddr raddr).1 := by
  rcases hP : dialTFO os network laddr raddr with ⟨tr, r⟩
  rw [hP] at h
  dsimp only at h
  subst h
  unfold dialTFO at hP
  dsimp only [SetTFODialer, setNoDelay] at hP
  split at hP
  · simp at hP
  · split at hP
    · simp at hP
    · next evs fd heq2 =>
      rw [setIPv6Only_returns_none] at hP
      dsimp only at hP
      split at hP
      · simp at hP
      · rcases laddr with _ | l
        · try dsimp only at hP
          injection hP with h1 h2
          injection h2 with h3
          subst h3
          subst h1
          simp [List.mem_append]
        · rcases hB : os.bindRes with _ | eb
          · rw [hB] at hP
            simp only [Option.map_none'] at hP
            try dsimp only at hP
            injection hP with h1 h2
            injection h2 with h3
            subst h3
            subst h1
            simp [List.mem_append]
          · rw [hB] at hP
            simp at hP

/-- The connection `dialTFO` returns on the all-success oracle. -/
def connOk : tfoConn :=
  { fd := 3, fileClosed := false, connected := false, network := "tcp",
    laddr := none, raddr := raddr4,
    lsockaddr := Sockaddr.inet4 0 [0, 0, 0, 0],
    rsockaddr := Sockaddr.inet4 443 [127, 0, 0, 1] }

/-- Witness for C10 on the all-success oracle. -/
theorem dial_sets_nodelay_witness :
    Event.setsockoptInt 3 IPPROTO_TCP TCP_NODELAY 1 ∈
      (dialTFO okOS "tcp" none raddr4).1 := by
  have h : (dialTFO okOS "tcp" none raddr4).2 = Except.ok connOk := rfl
  exact dial_sets_nodelay okOS "tcp" none raddr4 connOk h

end Tfo
